import Mathlib

/-!
Verification of the resolver layer, data store and HTTP transport of the
graphql-go walkthrough repository.

The embedding covers:
* the in-memory pointer-resolver variant (main-5.go): the `User`/`Note`
  data model, the seeded store, the root resolvers `Users`, `User`,
  `Notes`, `Note`, `CreateNote`, and the per-type accessor resolvers;
* the database-backed variant of the root `User` resolver (the file that
  queries Postgres through `database/sql`), where a lookup miss surfaces
  as the driver error `sql: no rows in result set`;
* the HTTP transport (the file serving `/graphql`): the responder helpers
  built from the status table and the request handler that checks the
  method, runs the executor and maps errors to status codes.

Go slices become `List`, Go pointers that may be nil become `Option`, and
the `(value, error)` return pairs become products with an `Option GoError`
component (`none` is the nil error).
-/

namespace Walkthrough

/-- graphql.ID is a string-valued scalar in the Go library. -/
abbrev ID := String

/-- Go errors are modelled by their message string; `Option GoError` with
`none` models a nil error. -/
abbrev GoError := String

/-- Note (main-5.go): a note identifier and a text payload. -/
structure Note where
  noteID : ID
  data : String
deriving DecidableEq, Repr

/-- User (main-5.go): identifier, username, emoji and the owned notes in
insertion order. -/
structure User where
  userID : ID
  username : String
  emoji : String
  notes : List Note
deriving DecidableEq, Repr

/-- UserResolver (main-5.go) wraps a user; in the source it wraps a
pointer that is non-nil on every constructed path. -/
structure UserResolver where
  u : User
deriving DecidableEq, Repr

/-- NoteResolver (main-5.go) wraps a `*Note`; the pointer can be nil on
the CreateNote miss path, so the wrapped value is an `Option Note`. -/
structure NoteResolver where
  n : Option Note
deriving DecidableEq, Repr

/-- UserResolver.UserID (main-5.go): returns the wrapped user identifier. -/
def UserResolver.UserID (r : UserResolver) : ID :=
  r.u.userID

/-- UserResolver.Username (main-5.go): returns the wrapped username. -/
def UserResolver.Username (r : UserResolver) : String :=
  r.u.username

/-- UserResolver.Emoji (main-5.go): returns the wrapped emoji. -/
def UserResolver.Emoji (r : UserResolver) : String :=
  r.u.emoji

/-- UserResolver.Notes (main-5.go): wraps each owned note in a
NoteResolver, preserving order. -/
def UserResolver.Notes (r : UserResolver) : List NoteResolver :=
  r.u.notes.map (fun note => ⟨some note⟩)

/-- NoteResolver.NoteID (main-5.go): dereferences the wrapped pointer;
`none` models the nil-pointer dereference panic that the Go accessor
performs when the wrapped `*Note` is nil. -/
def NoteResolver.NoteID (r : NoteResolver) : Option ID :=
  r.n.map Note.noteID

/-- NoteResolver.Data (main-5.go): dereferences the wrapped pointer;
`none` models the nil-pointer dereference panic. -/
def NoteResolver.Data (r : NoteResolver) : Option String :=
  r.n.map Note.data

/-- The in-memory data store of main-5.go: the package-level users slice. -/
abbrev Store := List User

/-- RootResolver.Users (main-5.go): wraps every stored user in a
UserResolver, preserving store order; the error result is always nil. -/
def RootResolver.Users (store : Store) :
    List UserResolver × Option GoError :=
  (store.map (fun u => ⟨u⟩), none)

/-- RootResolver.User (main-5.go): linear scan for the first user whose
identifier equals the argument; a miss returns nil with a nil error. -/
def RootResolver.User (store : Store) (userID : ID) :
    Option UserResolver × Option GoError :=
  match store.find? (fun u => u.userID == userID) with
  | some u => (some ⟨u⟩, none)
  | none => (none, none)

/-- RootResolver.Notes (main-5.go): finds the user via RootResolver.User
and, when found, delegates to the UserResolver.Notes accessor; a miss
returns the nil slice with the (nil) error of the user lookup. -/
def RootResolver.Notes (store : Store) (userID : ID) :
    List NoteResolver × Option GoError :=
  match RootResolver.User store userID with
  | (some user, none) => (user.Notes, none)
  | (_, e) => ([], e)

/-- RootResolver.Note (main-5.go): nested scan over every user and every
owned note, in order, for the first note with the given identifier; a
miss returns nil with a nil error. -/
def RootResolver.Note (store : Store) (noteID : ID) :
    Option NoteResolver × Option GoError :=
  match (store.flatMap (fun u => u.notes)).find? (fun n => n.noteID == noteID) with
  | some n => (some ⟨some n⟩, none)
  | none => (none, none)

/-- RootResolver.CreateNote (main-5.go): for every user whose identifier
matches, creates a note with the fixed identifier n-010 and appends it to
that user; the returned resolver wraps the last note created, or the nil
pointer when no user matched, and the error is always nil. -/
def RootResolver.CreateNote (store : Store) (userID : ID)
    (data : String) : Store × NoteResolver × Option GoError :=
  let newStore := store.map fun u =>
    if u.userID == userID then
      { u with notes := u.notes ++ [⟨"n-010", data⟩] }
    else u
  let note : Option Walkthrough.Note :=
    if store.any (fun u => u.userID == userID) then
      some ⟨"n-010", data⟩
    else none
  (newStore, ⟨note⟩, none)

/-- Note identifiers present in a store, in traversal order. -/
def storeNoteIDs (store : Store) : List ID :=
  (store.flatMap (fun u => u.notes)).map Note.noteID

/-- First seeded user of main-5.go. -/
def user1 : User :=
  ⟨"u-001", "nyxerys", "🇵🇹",
    [⟨"n-001", "Olá Mundo!"⟩, ⟨"n-002", "Olá novamente, mundo!"⟩,
     ⟨"n-003", "Olá, escuridão!"⟩]⟩

/-- Second seeded user of main-5.go. -/
def user2 : User :=
  ⟨"u-002", "rdnkta", "🇺🇦",
    [⟨"n-004", "Привіт Світ!"⟩, ⟨"n-005", "Привіт ще раз, світ!"⟩,
     ⟨"n-006", "Привіт, темрява!"⟩]⟩

/-- Third seeded user of main-5.go. -/
def user3 : User :=
  ⟨"u-003", "username_ZAYDEK", "🇺🇸",
    [⟨"n-007", "Hello, world!"⟩, ⟨"n-008", "Hello again, world!"⟩,
     ⟨"n-009", "Hello, darkness!"⟩]⟩

/-- The seeded in-memory store of main-5.go. -/
def seedStore : Store :=
  [user1, user2, user3]

/-- Row of the users table in the database-backed variant. -/
structure UserRow where
  user_id : ID
  username : String
deriving DecidableEq, Repr

/-- Resolver wrapping a user row in the database-backed variant (it has
no emoji column). -/
structure DBUserResolver where
  u : UserRow
deriving DecidableEq, Repr

/-- Error returned by database/sql when QueryRow(...).Scan finds no row. -/
def dbSqlErrNoRows : GoError := "sql: no rows in result set"

/-- RootResolver.User of the database-backed variant: runs
QueryRow(SELECT user_id, username FROM users WHERE user_id = $1).Scan;
a matching row yields a wrapped resolver with a nil error, and a lookup
miss makes Scan return sql.ErrNoRows, so the resolver returns nil
together with that error. -/
def DBRootResolver.User (usersTable : List UserRow) (userID : ID) :
    Option DBUserResolver × Option GoError :=
  match usersTable.find? (fun row => row.user_id == userID) with
  | some row => (some ⟨row⟩, none)
  | none => (none, some dbSqlErrNoRows)

/-- The users table seeded by the migration script of the database
variant (identifiers as printed in its walkthrough comment). -/
def seedUsersTable : List UserRow :=
  [⟨"u-f4ff7e", "nyxerys"⟩, ⟨"u-260753", "rdnkta"⟩, ⟨"u-33e723", "zaydek"⟩]

/-- Status code constants of the HTTP transport file. -/
def StatusCodeOK : Nat := 200

/-- Status code for Bad Request. -/
def StatusCodeBadRequest : Nat := 400

/-- Status code for Unauthorized. -/
def StatusCodeUnauthorized : Nat := 401

/-- Status code for Request Failed. -/
def StatusCodeRequestFailed : Nat := 402

/-- Status code for Not Found. -/
def StatusCodeNotFound : Nat := 404

/-- Status code for Conflict. -/
def StatusCodeConflict : Nat := 409

/-- Status code for Too Many Requests. -/
def StatusCodeTooManyRequests : Nat := 429

/-- Status code for Server Error. -/
def StatusCodeServerError : Nat := 500

/-- The Statuses map of the HTTP transport file; a missing key yields the
zero value of a Go map lookup, the empty string. -/
def Statuses (code : Nat) : String :=
  if code = StatusCodeOK then "OK"
  else if code = StatusCodeBadRequest then "Bad Request"
  else if code = StatusCodeUnauthorized then "Unauthorized"
  else if code = StatusCodeRequestFailed then "Request Failed"
  else if code = StatusCodeNotFound then "Not Found"
  else if code = StatusCodeConflict then "Conflict"
  else if code = StatusCodeTooManyRequests then "Too Many Requests"
  else if code = StatusCodeServerError then "Server Error"
  else ""

/-- The response an HTTP handler writes: the status code and the body. -/
structure HTTPResponse where
  status : Nat
  body : String
deriving DecidableEq, Repr

/-- NewResponder of the HTTP transport file: a 2xx code writes only the
header, anything else goes through http.Error, which writes the status
text from the Statuses map followed by a newline. -/
def NewResponder (statusCode : Nat) : HTTPResponse :=
  if 200 ≤ statusCode ∧ statusCode ≤ 299 then ⟨statusCode, ""⟩
  else ⟨statusCode, Statuses statusCode ++ "\n"⟩

/-- Result of Schema.Exec as the HTTP handler consumes it: the error list
of the response, and the json.MarshalIndent rendering of the whole
envelope (`none` models MarshalIndent returning an error). -/
structure ExecResult where
  errors : List GoError
  marshalled : Option String
deriving DecidableEq, Repr

/-- The /graphql handler of the HTTP transport file: a non-GET method is
answered by RespondNotFound before the executor runs; otherwise the
executor output is inspected — a non-empty error list (or a marshalling
failure) is answered by RespondServerError with the detail only logged,
and otherwise the marshalled envelope is printed to the response writer,
which carries an implicit 200 status. -/
def graphqlHandler (method : String) (exec : String → ExecResult)
    (query : String) : HTTPResponse :=
  if method ≠ "GET" then NewResponder StatusCodeNotFound
  else
    let resp := exec query
    if resp.errors.length > 0 then NewResponder StatusCodeServerError
    else
      match resp.marshalled with
      | none => NewResponder StatusCodeServerError
      | some j => ⟨StatusCodeOK, j⟩

/-- A concrete executor outcome carrying one execution error. -/
def execWithError : String → ExecResult :=
  fun _ => ⟨["graphql: syntax error"], none⟩

/-- A concrete successful executor outcome whose envelope marshals to the
string data. -/
def execOk : String → ExecResult :=
  fun _ => ⟨[], some "data"⟩

/-- Store reached from the seed store by one CreateNote call. -/
def store1 : Store :=
  (RootResolver.CreateNote seedStore "u-001" "first note").1

/-- Store reached from the seed store by two CreateNote calls. -/
def store2 : Store :=
  (RootResolver.CreateNote store1 "u-001" "second note").1

/-- A user that owns no notes, used to exercise the empty-notes path. -/
def user4 : User :=
  ⟨"u-004", "newuser", "", []⟩

/-- Helper: a Boolean scan of the store is false when no user identifier
equals the argument. -/
theorem store_any_eq_false (store : Store) (uid : ID)
    (h : ∀ u ∈ store, u.userID ≠ uid) :
    store.any (fun u => u.userID == uid) = false := by
  rw [List.any_eq_false]
  intro u hu
  simpa using h u hu

/-- Helper: the user lookup scan misses when no user identifier equals
the argument. -/
theorem store_find?_eq_none (store : Store) (uid : ID)
    (h : ∀ u ∈ store, u.userID ≠ uid) :
    store.find? (fun u => u.userID == uid) = none := by
  rw [List.find?_eq_none]
  intro u hu
  simpa using h u hu

/-- Helper: when no user identifier matches, CreateNote returns the
store unchanged together with a resolver wrapping the nil pointer and a
nil error. -/
theorem createNote_absent_eq (store : Store) (uid : ID) (d : String)
    (h : ∀ u ∈ store, u.userID ≠ uid) :
    RootResolver.CreateNote store uid d = (store, ⟨none⟩, none) := by
  have hany := store_any_eq_false store uid h
  have hmap : (store.map fun u =>
      if u.userID == uid then
        { u with notes := u.notes ++ [⟨"n-010", d⟩] }
      else u) = store := by
    conv_rhs => rw [← List.map_id store]
    refine List.map_congr_left ?_
    intro u hu
    have hne : (u.userID == uid) = false := by simpa using h u hu
    simp [hne]
  simp only [RootResolver.CreateNote]
  rw [hany, hmap]
  simp

/-- Claim C1, counterexample: on the store reached from the seed store by
one CreateNote call, the identifier n-010 is already present, yet a
second CreateNote call for the still-resolving user u-001 creates a note
with that same identifier, and after the second call the store holds two
notes with identifier n-010. -/
theorem c1_counterexample :
    store1.any (fun u => u.userID == "u-001") = true ∧
    NoteResolver.NoteID
        (RootResolver.CreateNote store1 "u-001" "second note").2.1 =
      some "n-010" ∧
    "n-010" ∈ storeNoteIDs store1 ∧
    (storeNoteIDs store2).count "n-010" = 2 := by
  decide

/-- Claim C1, amended: CreateNote always assigns the fixed identifier
n-010, so the created identifier is distinct from every identifier
already present exactly when n-010 is not yet in the store (as in the
seeded initial store); uniqueness is not preserved across successive
calls. -/
theorem c1_createNote_fresh_only_when_unseeded (store : Store) (uid : ID)
    (d : String) (hresolve : ∃ u ∈ store, u.userID = uid)
    (hfresh : "n-010" ∉ storeNoteIDs store) :
    ∀ nid ∈ storeNoteIDs store,
      NoteResolver.NoteID (RootResolver.CreateNote store uid d).2.1 ≠
        some nid := by
  have hany : store.any (fun u => u.userID == uid) = true := by
    rw [List.any_eq_true]
    obtain ⟨u, hu, he⟩ := hresolve
    exact ⟨u, hu, by simpa using he⟩
  intro nid hnid
  have hid : NoteResolver.NoteID (RootResolver.CreateNote store uid d).2.1 =
      some "n-010" := by
    simp [RootResolver.CreateNote, NoteResolver.NoteID, hany]
  rw [hid]
  intro hcontra
  apply hfresh
  have heq : "n-010" = nid := by simpa using hcontra
  rwa [heq]

/-- Witness for C1 amended at the seed store, user u-001 and the already
present identifier n-001. -/
theorem c1_witness :
    NoteResolver.NoteID
        (RootResolver.CreateNote seedStore "u-001" "hello").2.1 ≠
      some "n-001" :=
  c1_createNote_fresh_only_when_unseeded seedStore "u-001" "hello"
    (by decide) (by decide) "n-001" (by decide)

/-- Claim C2, counterexample: creating a note for the absent identifier
u-999 leaves the seed store unchanged but does not fail: the returned
error is nil, not a NotFound error. -/
theorem c2_counterexample :
    seedStore.all (fun u => u.userID != "u-999") = true ∧
    (RootResolver.CreateNote seedStore "u-999" "We created a note!").2.2 =
      none ∧
    (RootResolver.CreateNote seedStore "u-999" "We created a note!").1 =
      seedStore := by
  decide

/-- Claim C2, amended: for every userID absent from the store, CreateNote
leaves the store unchanged, but instead of failing with NotFound it
returns a resolver wrapping the nil note pointer together with a nil
error. -/
theorem c2_createNote_absent_unchanged (store : Store) (uid : ID)
    (d : String) (h : ∀ u ∈ store, u.userID ≠ uid) :
    (RootResolver.CreateNote store uid d).1 = store ∧
    (RootResolver.CreateNote store uid d).2.1 = ⟨none⟩ ∧
    (RootResolver.CreateNote store uid d).2.2 = none := by
  rw [createNote_absent_eq store uid d h]
  exact ⟨rfl, rfl, rfl⟩

/-- Witness for C2 amended at the seed store and the absent identifier
u-999. -/
theorem c2_witness :
    (RootResolver.CreateNote seedStore "u-999" "We created a note!").1 =
      seedStore ∧
    (RootResolver.CreateNote seedStore "u-999" "We created a note!").2.1 =
      ⟨none⟩ ∧
    (RootResolver.CreateNote seedStore "u-999" "We created a note!").2.2 =
      none :=
  c2_createNote_absent_unchanged seedStore "u-999" "We created a note!"
    (by decide)

/-- Claim C3, counterexample: in the database-backed variant, looking up
the absent identifier u-999 in the seeded users table makes the root user
resolver return the sql no-rows error, not a null result with a nil
error. -/
theorem c3_counterexample :
    seedUsersTable.all (fun row => row.user_id != "u-999") = true ∧
    DBRootResolver.User seedUsersTable "u-999" =
      (none, some dbSqlErrNoRows) := by
  decide

/-- Claim C3, amended: in the in-memory variant, for every userID absent
from the store the root user resolver returns nil with a nil error, and
likewise the root note resolver for an absent noteID; the database-backed
variant instead returns the driver no-rows error on a miss. -/
theorem c3_root_miss_is_null (store : Store) (uid nid : ID)
    (hu : ∀ u ∈ store, u.userID ≠ uid)
    (hn : ∀ u ∈ store, ∀ n ∈ u.notes, n.noteID ≠ nid) :
    RootResolver.User store uid = (none, none) ∧
    RootResolver.Note store nid = (none, none) := by
  constructor
  · unfold RootResolver.User
    rw [store_find?_eq_none store uid hu]
  · have hfind : (store.flatMap (fun u => u.notes)).find?
        (fun n => n.noteID == nid) = none := by
      rw [List.find?_eq_none]
      intro n hmem
      rw [List.mem_flatMap] at hmem
      obtain ⟨u, hu2, hnu⟩ := hmem
      simpa using hn u hu2 n hnu
    unfold RootResolver.Note
    rw [hfind]

/-- Witness for C3 amended at the seed store and the absent identifiers
u-999 and n-999. -/
theorem c3_witness :
    RootResolver.User seedStore "u-999" = (none, none) ∧
    RootResolver.Note seedStore "n-999" = (none, none) :=
  c3_root_miss_is_null seedStore "u-999" "n-999" (by decide) (by decide)

/-- Claim C4, counterexample: the root notes resolver applied to the
absent identifier u-999 on the seed store returns the empty list together
with a nil error; it does not signal NotFound. -/
theorem c4_counterexample :
    seedStore.all (fun u => u.userID != "u-999") = true ∧
    RootResolver.Notes seedStore "u-999" = ([], none) := by
  decide

/-- Claim C4, amended: the root notes resolver returns an empty sequence
with a nil error when the user exists but owns no notes, and it returns
the same empty sequence with a nil error — not a NotFound error — when no
user with that identifier exists. -/
theorem c4_notes_empty_or_miss (store : Store) (uid : ID) :
    (∀ u, store.find? (fun x => x.userID == uid) = some u → u.notes = [] →
      RootResolver.Notes store uid = ([], none)) ∧
    ((∀ u ∈ store, u.userID ≠ uid) →
      RootResolver.Notes store uid = ([], none)) := by
  constructor
  · intro u hfind hnotes
    unfold RootResolver.Notes RootResolver.User
    rw [hfind]
    simp [UserResolver.Notes, hnotes]
  · intro h
    unfold RootResolver.Notes RootResolver.User
    rw [store_find?_eq_none store uid h]

/-- Witness for C4 amended: a store whose only user owns no notes, and
the seed store with the absent identifier u-999. -/
theorem c4_witness :
    RootResolver.Notes [user4] "u-004" = ([], none) ∧
    RootResolver.Notes seedStore "u-999" = ([], none) :=
  ⟨(c4_notes_empty_or_miss [user4] "u-004").1 user4 (by decide) (by decide),
   (c4_notes_empty_or_miss seedStore "u-999").2 (by decide)⟩

/-- Claim C5, confirmed: when the user lookup scan resolves an identifier
to a stored user, the root user resolver returns that wrapped user with a
nil error, and its UserID accessor returns the input identifier while its
Username accessor returns the stored username. -/
theorem c5_user_matches_input (store : Store) (uid : ID) (u : User)
    (h : store.find? (fun x => x.userID == uid) = some u) :
    RootResolver.User store uid = (some ⟨u⟩, none) ∧
    UserResolver.UserID ⟨u⟩ = uid ∧
    UserResolver.Username ⟨u⟩ = u.username := by
  refine ⟨?_, ?_, rfl⟩
  · unfold RootResolver.User
    rw [h]
  · have hb := List.find?_some h
    simpa [UserResolver.UserID] using hb

/-- Witness for C5 at the seed store and the present identifier u-001. -/
theorem c5_witness :
    RootResolver.User seedStore "u-001" = (some ⟨user1⟩, none) ∧
    UserResolver.UserID ⟨user1⟩ = "u-001" ∧
    UserResolver.Username ⟨user1⟩ = user1.username :=
  c5_user_matches_input seedStore "u-001" user1 (by decide)

/-- Claim C6, confirmed: the root users resolver returns every stored
user, in store (insertion) order, with a nil error; in particular a store
seeded with u-001/nyxerys then u-002/rdnkta yields exactly those two
pairs in that order. -/
theorem c6_users_in_insertion_order :
    (∀ store : Store,
      (RootResolver.Users store).2 = none ∧
      (RootResolver.Users store).1.map (fun r => (r.UserID, r.Username)) =
        store.map (fun u => (u.userID, u.username))) ∧
    (RootResolver.Users (seedStore.take 2)).1.map
        (fun r => (r.UserID, r.Username)) =
      [("u-001", "nyxerys"), ("u-002", "rdnkta")] := by
  refine ⟨fun store => ⟨rfl, ?_⟩, by decide⟩
  simp [RootResolver.Users, UserResolver.UserID, UserResolver.Username]

/-- Claim C7, confirmed: for a user the store lookup resolves, the root
notes resolver returns exactly the list produced by the Notes accessor
of that user, with a nil error — the root operation delegates to the
per-user accessor. -/
theorem c7_user_notes_delegates (store : Store) (u : User)
    (h : store.find? (fun x => x.userID == u.userID) = some u) :
    RootResolver.Notes store u.userID = (UserResolver.Notes ⟨u⟩, none) := by
  unfold RootResolver.Notes RootResolver.User
  rw [h]

/-- Witness for C7 at the seed store and its first user. -/
theorem c7_witness :
    RootResolver.Notes seedStore user1.userID =
      (UserResolver.Notes ⟨user1⟩, none) :=
  c7_user_notes_delegates seedStore user1 (by decide)

/-- Claim C8, confirmed: a request whose method is not GET is answered
with the 404 responder, and the handler output is independent of the
executor and the query — no query execution is observable. -/
theorem c8_non_get_is_404 (method : String)
    (exec exec2 : String → ExecResult) (query query2 : String)
    (h : method ≠ "GET") :
    graphqlHandler method exec query = NewResponder StatusCodeNotFound ∧
    graphqlHandler method exec query =
      graphqlHandler method exec2 query2 := by
  constructor
  · simp [graphqlHandler, h]
  · simp [graphqlHandler, h]

/-- Witness for C8 at a POST request, two different executors and two
different queries. -/
theorem c8_witness :
    graphqlHandler "POST" execOk "query1" = NewResponder StatusCodeNotFound ∧
    graphqlHandler "POST" execOk "query1" =
      graphqlHandler "POST" execWithError "query2" :=
  c8_non_get_is_404 "POST" execOk execWithError "query1" "query2"
    (by decide)

/-- Claim C9, confirmed: on a GET request, a non-empty executor error
list is answered with status 500 and the fixed generic body of the
Server Error responder, which is independent of the error text; an empty
error list with a successful marshalling is answered with status 200 and
the full marshalled envelope as the body. -/
theorem c9_exec_error_maps_500 (exec : String → ExecResult)
    (query : String) :
    ((exec query).errors ≠ [] →
      graphqlHandler "GET" exec query =
        ⟨StatusCodeServerError, "Server Error\n"⟩) ∧
    (∀ j : String, (exec query).errors = [] →
      (exec query).marshalled = some j →
      graphqlHandler "GET" exec query = ⟨StatusCodeOK, j⟩) := by
  have hresp : NewResponder StatusCodeServerError =
      ⟨StatusCodeServerError, "Server Error\n"⟩ := by decide
  constructor
  · intro herr
    have hlen : 0 < (exec query).errors.length := List.length_pos.mpr herr
    simp [graphqlHandler, hlen, hresp]
  · intro j hnil hj
    simp [graphqlHandler, hnil, hj]

/-- Witness for C9 at a failing executor and a succeeding executor. -/
theorem c9_witness :
    graphqlHandler "GET" execWithError "q" =
      ⟨StatusCodeServerError, "Server Error\n"⟩ ∧
    graphqlHandler "GET" execOk "q" = ⟨StatusCodeOK, "data"⟩ :=
  ⟨(c9_exec_error_maps_500 execWithError "q").1 (by decide),
   (c9_exec_error_maps_500 execOk "q").2 "data" rfl rfl⟩

/-- Claim C10, confirmed: for every userID absent from the store,
CreateNote returns a nil error and a (non-nil) resolver wrapping the nil
note pointer, so both accessors of the returned resolver dereference a
nil pointer (modelled by the accessors returning none). -/
theorem c10_createNote_miss_wraps_nil (store : Store) (uid : ID)
    (d : String) (h : ∀ u ∈ store, u.userID ≠ uid) :
    (RootResolver.CreateNote store uid d).2.2 = none ∧
    (RootResolver.CreateNote store uid d).2.1 = ⟨none⟩ ∧
    NoteResolver.NoteID (RootResolver.CreateNote store uid d).2.1 = none ∧
    NoteResolver.Data (RootResolver.CreateNote store uid d).2.1 = none := by
  rw [createNote_absent_eq store uid d h]
  exact ⟨rfl, rfl, rfl, rfl⟩

/-- Witness for C10 at the seed store and the absent identifier u-999. -/
theorem c10_witness :
    (RootResolver.CreateNote seedStore "u-999" "orphan").2.2 = none ∧
    (RootResolver.CreateNote seedStore "u-999" "orphan").2.1 = ⟨none⟩ ∧
    NoteResolver.NoteID
        (RootResolver.CreateNote seedStore "u-999" "orphan").2.1 = none ∧
    NoteResolver.Data
        (RootResolver.CreateNote seedStore "u-999" "orphan").2.1 = none :=
  c10_createNote_miss_wraps_nil seedStore "u-999" "orphan" (by decide)

end Walkthrough
